import Mathlib

/-!
Verification of the strava-coverage activity-ingest-and-coverage pipeline.

The Go source is shallowly embedded: SQL queries over the `activities`,
`cities`, `import_status`, `comment_settings` and `custom_areas` tables
become Lean functions over lists of records, and the PostGIS geometry
operators (`ST_Area`, `ST_Length`, `ST_Intersects`, ...) become fields of
explicit oracle structures, since the application pushes all geometry to
the database extension and never computes it itself.  Floating point is
modelled by `ℚ`; machine integers fit well inside their ranges here.
-/

namespace Strava

/-- Row of the `activities` table, restricted to the columns the verified
queries touch.  `path` is a handle (geometry is resolved through an
oracle); `stravaId` is the provider activity id (`strava_activity_id` /
`strava_id`). -/
structure Activity where
  stravaId : Int
  userId : Nat
  path : Option Nat
  cityId : Option Nat
  coverage : Option ℚ
  commentedAt : Option Int
  commentPosted : Bool
  startDate : Int
  activityType : String
deriving DecidableEq, Repr

/-- Geometry oracle for city coverage: `areaSqm c` is
`ST_Area(ST_Transform(boundary, 3857))` of city `c`, and `pathLenM p` is
`ST_Length(ST_Transform(path, 3857))` of path handle `p`. -/
structure CityGeo where
  areaSqm : Nat → ℚ
  pathLenM : Nat → ℚ

/-- The `user_distance` CTE of `calculateGridBasedCoverage`: total
kilometres over the user's activities attributed to the city with a
non-NULL path (`a.user_id = $2 AND a.city_id = $1 AND a.path IS NOT
NULL`). -/
def userDistanceKm (g : CityGeo) (acts : List Activity) (u cid : Nat) : ℚ :=
  ((acts.filter (fun a => a.userId == u && a.cityId == some cid && a.path.isSome)).map
    (fun a => g.pathLenM (a.path.getD 0) / 1000)).sum

/-- The `city_explorable` CTE of `calculateGridBasedCoverage`: the tiered
CASE expression estimating explorable kilometres from city area. -/
def estimatedExplorableKm (areaKm2 : ℚ) : ℚ :=
  if areaKm2 < 50 then areaKm2 * 80
  else if areaKm2 < 200 then areaKm2 * 60
  else if areaKm2 < 500 then areaKm2 * 40
  else areaKm2 * 30

/-- `CoverageService.calculateGridBasedCoverage`: the activity-scoped city
coverage.  `LEAST((total/explorable)*100, 100)` when `explorable > 0`,
else `0`. -/
def calculateGridBasedCoverage (g : CityGeo) (acts : List Activity) (u cid : Nat) : ℚ :=
  let areaKm2 := g.areaSqm cid / 1000000
  let explorable := estimatedExplorableKm areaKm2
  let total := userDistanceKm g acts u cid
  if 0 < explorable then min (total / explorable * 100) 100 else 0

/-- The covered-kilometre sum of `GetUserCityCoverageHandler`
(`LEFT JOIN activities a ON a.city_id = c.id AND a.user_id = $2`; rows
with a NULL path contribute NULL to the SUM and are hence dropped). -/
def handlerCoveredKm (g : CityGeo) (acts : List Activity) (u cid : Nat) : ℚ :=
  ((acts.filter (fun a => a.cityId == some cid && a.userId == u && a.path.isSome)).map
    (fun a => g.pathLenM (a.path.getD 0) / 1000)).sum

/-- `CoverageService.GetUserCityCoverageHandler`: the user-city coverage
read endpoint.  It estimates roads as `area_km2 * 12` and caps the ratio
at 100 in Go code (`coveragePercent = 0` when the estimate is not
positive). -/
def getUserCityCoverage (g : CityGeo) (acts : List Activity) (u cid : Nat) : ℚ :=
  let roadsKm := g.areaSqm cid / 1000000 * 12
  let covered := handlerCoveredKm g acts u cid
  if 0 < roadsKm then min (covered / roadsKm * 100) 100 else 0

/-- Modelled from the spec: `explorable_km(city)` written exactly as the
spec's four-tier table. -/
def explorableKmSpec (areaKm2 : ℚ) : ℚ :=
  if areaKm2 < 50 then areaKm2 * 80
  else if 50 ≤ areaKm2 ∧ areaKm2 < 200 then areaKm2 * 60
  else if 200 ≤ areaKm2 ∧ areaKm2 < 500 then areaKm2 * 40
  else areaKm2 * 30

/-- Modelled from the spec: `coverage(user, city) = min(100,
total_km / explorable_km × 100)`, with result 0 (never NaN) when
`explorable_km = 0`. -/
def coverageSpec (areaKm2 totalKm : ℚ) : ℚ :=
  let e := explorableKmSpec areaKm2
  if e = 0 then 0 else min 100 (totalKm / e * 100)

/-- Outcome of the Strava comment POST: either the HTTP transport failed
or the provider answered with a status code. -/
inductive HttpOutcome where
  | netError (msg : String)
  | response (status : Nat)
deriving DecidableEq, Repr

/-- `AutoCommentService.PostCommentToStrava`: returns an error unless the
response status is exactly `http.StatusCreated` (201). -/
def postCommentToStrava (r : HttpOutcome) : Except String Unit :=
  match r with
  | .netError m => .error ("failed to post comment: " ++ m)
  | .response s =>
    if s ≠ 201 then .error ("failed to post comment, status: " ++ toString s)
    else .ok ()

/-- Success test on an `Except` result (err == nil in Go). -/
def exceptOk : Except String Unit → Bool
  | .ok _ => true
  | .error _ => false

/-- A Strava activity summary as delivered by the paginated list
endpoint (`StravaActivitySummary` / `StravaActivity`). -/
structure Summary where
  id : Int
  name : String
  activityType : String
  sportType : String
  startLatlng : List ℚ
  endLatlng : List ℚ
  summaryPolyline : String
deriving DecidableEq, Repr

/-- The filterable sport types of `shouldImportActivity`. -/
def validTypes : List String :=
  ["Run", "Ride", "Walk", "Hike", "TrailRun", "VirtualRun", "VirtualRide"]

/-- `InitialImportService.shouldImportActivity`: rejects when the start
coordinates are empty OR the summary polyline is empty, then requires the
type or sport type to be filterable. -/
def shouldImportActivity (a : Summary) : Bool :=
  if a.startLatlng.length == 0 || a.summaryPolyline == "" then false
  else validTypes.any (fun t => a.activityType == t || a.sportType == t)

/-- What happens to one summary during an import pass. -/
inductive ImportOutcome where
  | skippedFilter
  | skippedDuplicate
  | failedNoGps
  | inserted
deriving DecidableEq, Repr

/-- `InitialImportService.importSingleActivity`: duplicate check against
stored provider ids, then the latlng stream fetch (empty stream is the
"no GPS data found" error), then the INSERT. -/
def importSingleActivityOutcome (stored : List Int) (streams : Int → List (ℚ × ℚ))
    (a : Summary) : ImportOutcome :=
  if a.id ∈ stored then .skippedDuplicate
  else if streams a.id = [] then .failedNoGps
  else .inserted

/-- One summary of a page in `performInitialImport` (the explicit bulk
flow): the qualification filter guards the per-activity import. -/
def explicitImportOutcome (stored : List Int) (streams : Int → List (ℚ × ℚ))
    (a : Summary) : ImportOutcome :=
  if shouldImportActivity a then importSingleActivityOutcome stored streams a
  else .skippedFilter

/-- `AutoProcessor.importActivitySummary` as driven by
`importAllActivities` (auto-on-login import): no qualification filter at
all, only the duplicate check before the INSERT. -/
def importActivitySummaryOutcome (stored : List Int) (a : Summary) : ImportOutcome :=
  if a.id ∈ stored then .skippedDuplicate else .inserted

/-- Geometry oracle for attribution: `intersects p c` is
`ST_Intersects(path, boundary)` and `interLenM p c` is
`ST_Length(ST_Transform(ST_Intersection(path, boundary), 3857))`. -/
structure IntersectGeo where
  intersects : Nat → Nat → Bool
  interLenM : Nat → Nat → ℚ

/-- Cities admitted by the attribution subquery for a path: those whose
boundary intersects it (`WHERE ST_Intersects(activities.path,
c.boundary)`). -/
def attributionCandidates (g : IntersectGeo) (cities : List Nat) (p : Nat) : List Nat :=
  cities.filter (fun c => g.intersects p c)

/-- Admissible result of the scalar subquery `SELECT c.id ... ORDER BY
ST_Length(...) DESC LIMIT 1`: NULL when no city intersects, otherwise
some intersecting city of maximal intersection length.  The ORDER BY has
no secondary key, so ties leave the choice to the database. -/
def IsAttributionChoice (g : IntersectGeo) (cities : List Nat) (p : Nat) :
    Option Nat → Prop
  | none => attributionCandidates g cities p = []
  | some c => c ∈ attributionCandidates g cities p ∧
      ∀ c' ∈ attributionCandidates g cities p, g.interLenM p c' ≤ g.interLenM p c

/-- Effect of the `mapActivitiesToCities` UPDATE on one activity row: the
row is rewritten only when it matches `user_id = $1 AND path IS NOT NULL
AND city_id IS NULL`, and then only its `city_id` changes, to an
admissible subquery result. -/
def mapStepRel (g : IntersectGeo) (cities : List Nat) (u : Nat) (a a' : Activity) : Prop :=
  if a.userId = u ∧ a.path ≠ none ∧ a.cityId = none then
    IsAttributionChoice g cities (a.path.getD 0) a'.cityId ∧
      a' = { a with cityId := a'.cityId }
  else a' = a

/-- `AutoProcessor.mapActivitiesToCities` as a relation between the
activities table before and after the UPDATE. -/
def MapActivitiesToCities (g : IntersectGeo) (cities : List Nat) (u : Nat)
    (pre post : List Activity) : Prop :=
  List.Forall₂ (mapStepRel g cities u) pre post

/-- Row of the `cities` table as consumed by the delta notifier. -/
structure CityRow where
  id : Nat
  name : String
deriving DecidableEq, Repr

/-- Database state seen by the auto-comment service. -/
structure CommentsDB where
  activities : List Activity
  cities : List CityRow
deriving DecidableEq, Repr

/-- `COALESCE(MAX(xs), 0)`: 0 on the empty set, otherwise the maximum. -/
def maxOrZero : List ℚ → ℚ
  | [] => 0
  | x :: xs => List.foldl max x xs

/-- The outer filter of `DetectCoverageIncreases` (`a.user_id = $1 AND
a.coverage_percentage IS NOT NULL AND a.commented_at IS NULL`), which is
also the filter of the `previous_coverage` CTE. -/
def pendingActivities (db : CommentsDB) (u : Nat) : List Activity :=
  db.activities.filter (fun a =>
    a.userId == u && a.coverage.isSome && a.commentedAt == none)

/-- The aggregate of one `previous_coverage` group (grouped by
`a1.city_id, a1.id`): max coverage over the same user's activities in the
same city with an earlier start (`a1.city_id = a2.city_id` is SQL
equality, never satisfied when `a1.city_id` is NULL; MAX ignores NULL
coverages). -/
def prevCoverageFor (db : CommentsDB) (u : Nat) (a1 : Activity) : ℚ :=
  maxOrZero ((db.activities.filter (fun a2 =>
      a1.cityId.isSome && a2.cityId == a1.cityId && a2.userId == u
        && decide (a2.startDate < a1.startDate))).filterMap (fun a2 => a2.coverage))

/-- One detected coverage increase (`CoverageIncrease`). -/
structure IncRow where
  activityId : Int
  cityId : Nat
  cityName : String
  prev : ℚ
  newCov : ℚ
  increase : ℚ
  startDate : Int
  activityType : String
deriving DecidableEq, Repr

/-- `AutoCommentService.DetectCoverageIncreases`.  The CTE rows carry
only `(city_id, prev_coverage)` — the grouping key `a1.id` is *not*
selected — and the main query re-joins them with `LEFT JOIN
previous_coverage pc ON a.city_id = pc.city_id`, so every pending
activity pairs with every CTE row of its city.  Rows with
`coverage - COALESCE(prev, 0) > 0` survive, ordered by `start_date ASC`. -/
def detectCoverageIncreases (db : CommentsDB) (u : Nat) : List IncRow :=
  let pc := (pendingActivities db u).map (fun a1 => (a1.cityId, prevCoverageFor db u a1))
  let rows := (pendingActivities db u).flatMap (fun a =>
    match (db.cities.filter (fun c => a.cityId == some c.id)).head? with
    | none => []
    | some c =>
      let pcMatches := pc.filter (fun r => r.1 == a.cityId && a.cityId.isSome)
      let prevs := if pcMatches.isEmpty then [(0 : ℚ)] else pcMatches.map (fun r => r.2)
      prevs.filterMap (fun prev =>
        let cov := a.coverage.getD 0
        if 0 < cov - prev then
          some { activityId := a.stravaId, cityId := a.cityId.getD 0,
                 cityName := c.name, prev := prev, newCov := cov,
                 increase := cov - prev, startDate := a.startDate,
                 activityType := a.activityType }
        else none))
  rows.insertionSort (fun r1 r2 => r1.startDate ≤ r2.startDate)

/-- Row of the `comment_settings` table. -/
structure CommentSettings where
  userId : Nat
  enabled : Bool
  runningEnabled : Bool
  cyclingEnabled : Bool
  walkingEnabled : Bool
  hikingEnabled : Bool
  ebikingEnabled : Bool
  skiingEnabled : Bool
  commentTemplate : String
  minCoverageIncrease : ℚ
  customAreasEnabled : Bool
deriving DecidableEq, Repr

/-- The synthetic default settings `GetUserCommentSettings` returns when
the SELECT yields no row (or any error). -/
def defaultCommentSettings (u : Nat) : CommentSettings :=
  { userId := u, enabled := false, runningEnabled := true, cyclingEnabled := true,
    walkingEnabled := true, hikingEnabled := true, ebikingEnabled := true,
    skiingEnabled := true,
    commentTemplate := "Your coverage of {city} is {coverage}%!",
    minCoverageIncrease := 1/10, customAreasEnabled := false }

/-- `AutoCommentService.GetUserCommentSettings`: the stored row when one
exists, otherwise the synthetic defaults; never an error. -/
def getUserCommentSettings (u : Nat) (row : Option CommentSettings) : CommentSettings :=
  row.getD (defaultCommentSettings u)

/-- `AutoCommentService.ShouldCommentOnActivity`. -/
def shouldCommentOnActivity (s : CommentSettings) (ty : String) (inc : ℚ) : Bool :=
  if !s.enabled || decide (inc < s.minCoverageIncrease) then false
  else if ty == "Run" || ty == "VirtualRun" then s.runningEnabled
  else if ty == "Ride" || ty == "VirtualRide" then s.cyclingEnabled
  else if ty == "Walk" then s.walkingEnabled
  else if ty == "Hike" then s.hikingEnabled
  else if ty == "EBikeRide" then s.ebikingEnabled
  else if ty == "AlpineSki" || ty == "BackcountrySki" || ty == "NordicSki" then s.skiingEnabled
  else true

/-- `AutoCommentService.MarkActivityAsCommented`: `UPDATE activities SET
commented_at = NOW() WHERE strava_id = $1`.  It touches no other column;
in particular `comment_posted` is left as it is. -/
def markActivityAsCommented (db : CommentsDB) (aid : Int) (now : Int) : CommentsDB :=
  { db with activities := db.activities.map (fun a =>
      if a.stravaId == aid then { a with commentedAt := some now } else a) }

/-- Outcomes of the external calls made while processing comments:
whether the POST to Strava succeeds and whether the mark-commented UPDATE
succeeds, per provider activity id. -/
structure PostOracle where
  postOk : Int → Bool
  markOk : Int → Bool

/-- One iteration of the `ProcessAutoCommentsForUser` loop: skip when the
settings reject the activity type or the increase; a failed post skips
the mark (`continue`); a failed mark-commented UPDATE is only logged.
State: (table, posted ids, marked ids). -/
def processStep (s : CommentSettings) (o : PostOracle) (now : Int)
    (st : CommentsDB × List Int × List Int) (inc : IncRow) :
    CommentsDB × List Int × List Int :=
  let (db', posted, marked) := st
  if shouldCommentOnActivity s inc.activityType inc.increase then
    if o.postOk inc.activityId then
      if o.markOk inc.activityId then
        (markActivityAsCommented db' inc.activityId now,
         posted ++ [inc.activityId], marked ++ [inc.activityId])
      else (db', posted ++ [inc.activityId], marked)
    else (db', posted, marked)
  else st

/-- `AutoCommentService.ProcessAutoCommentsForUser`: fetch settings (the
call cannot fail), bail out posting nothing when disabled, otherwise walk
the detected increases.  Returns the final table together with the posted
and marked provider ids in order. -/
def processAutoComments (db : CommentsDB) (settingsRow : Option CommentSettings)
    (o : PostOracle) (u : Nat) (now : Int) : CommentsDB × List Int × List Int :=
  let s := getUserCommentSettings u settingsRow
  if !s.enabled then (db, [], [])
  else
    (detectCoverageIncreases db u).foldl (processStep s o now) (db, [], [])

/-- What one delta-notifier run may do to one activity row: it never
touches `comment_posted` (or any column other than `commented_at`), and
`commented_at` is either left alone or stamped with the current time. -/
def CommentRunPreserves (now : Int) (a a' : Activity) : Prop :=
  a'.commentPosted = a.commentPosted ∧ a'.stravaId = a.stravaId ∧
  a'.userId = a.userId ∧ a'.cityId = a.cityId ∧ a'.coverage = a.coverage ∧
  a'.startDate = a.startDate ∧ a'.activityType = a.activityType ∧ a'.path = a.path ∧
  (a'.commentedAt = a.commentedAt ∨ a'.commentedAt = some now)

/-- Row of the `import_status` table, restricted to the columns
`performInitialImport` and its helpers write (`completed` stands for
`completed_at IS NOT NULL`). -/
structure ImportStatusRow where
  inProgress : Bool
  currentPage : Nat
  imported : Nat
  failed : Nat
  errorMessage : Option String
  completed : Bool
deriving DecidableEq, Repr

/-- Result of one paginated list call: either status 200 with a page of
summaries, or a failing status (429 included — `fetchActivitiesPage`
errors on every non-200 status and performs no retry). -/
inductive PageResult where
  | ok (acts : List Summary)
  | httpFail (status : Nat)

/-- The per-page import loop body over the summaries of one page:
qualifying summaries go through `importSingleActivity`; a nil error
(insert or silent duplicate skip) increments `imported`, an error
increments `failed`; non-qualifying summaries are not counted. -/
def processPage (streams : Int → List (ℚ × ℚ)) :
    List Summary → Nat × Nat × List Int → Nat × Nat × List Int
  | [], acc => acc
  | a :: rest, (imp, fl, stored) =>
    if shouldImportActivity a then
      match importSingleActivityOutcome stored streams a with
      | .inserted => processPage streams rest (imp + 1, fl, a.id :: stored)
      | .skippedDuplicate => processPage streams rest (imp + 1, fl, stored)
      | _ => processPage streams rest (imp, fl + 1, stored)
    else processPage streams rest (imp, fl, stored)

/-- The page loop of `performInitialImport`: fetch the page (break on
error), break on an empty page, import the page, write `current_page`,
`imported_count`, `failed_count` via `updateImportStatus`, continue while
the page was full (`perPage` = 100) and the next page number stays within
the hard cap of 1000.  Returns the status row, the pages requested in
order, and the final counters.  The fuel is one more than the page cap,
so it is never exhausted when starting from page 1. -/
def importLoop (provider : Nat → PageResult) (streams : Int → List (ℚ × ℚ)) :
    Nat → Nat → Nat × Nat × List Int → ImportStatusRow →
    ImportStatusRow × List Nat × Nat × Nat
  | 0, _, (imp, fl, _), st => (st, [], imp, fl)
  | fuel + 1, page, (imp, fl, stored), st =>
    match provider page with
    | .httpFail _ => (st, [page], imp, fl)
    | .ok acts =>
      if acts.length = 0 then (st, [page], imp, fl)
      else
        let acc' := processPage streams acts (imp, fl, stored)
        let st' := { st with currentPage := page, imported := acc'.1, failed := acc'.2.1 }
        if acts.length < 100 then (st', [page], acc'.1, acc'.2.1)
        else if 1000 < page + 1 then (st', [page], acc'.1, acc'.2.1)
        else
          let r := importLoop provider streams fuel (page + 1) acc' st'
          (r.1, page :: r.2.1, r.2.2)

/-- `InitialImportService.performInitialImport` (explicit bulk import):
`setImportInProgress(true)` resets `current_page` to 1 and clears
`error_message` and `completed_at`; the loop always starts at page 1
(`current_page` is never read back); afterwards `finalizeImportStatus`
records the totals, clears `in_progress` and stamps `completed_at`.
Returns the final row and the list of pages requested. -/
def performInitialImport (provider : Nat → PageResult) (streams : Int → List (ℚ × ℚ))
    (stored : List Int) (st0 : ImportStatusRow) : ImportStatusRow × List Nat :=
  let st1 := { st0 with inProgress := true, currentPage := 1,
                        completed := false, errorMessage := none }
  let r := importLoop provider streams 1001 1 (0, 0, stored) st1
  ({ r.1 with imported := r.2.2.1, failed := r.2.2.2,
              inProgress := false, completed := true }, r.2.1)

/-- Geometry and geocoding oracle for city discovery.  `startLat` /
`startLng` are `ST_Y` / `ST_X` of `ST_StartPoint(path)`; `geocode` is
`reverseGeocodeCity` (network call with offline fallback); `toMerc` is
`ST_Transform(·, 3857)` of a 4326 point given as (lng, lat);
`seededCentroid` is the 3857-reprojected `ST_Centroid` of a seeded city
boundary; `iLike a b` is PostgreSQL's `a ILIKE b` — case-insensitive
equality when, as here, the pattern carries no wildcard. -/
structure DiscoveryGeo where
  startLat : Nat → ℚ
  startLng : Nat → ℚ
  geocode : ℚ → ℚ → String × String
  toMerc : ℚ → ℚ → ℚ × ℚ
  seededCentroid : Nat → ℚ × ℚ
  iLike : String → String → Bool

/-- PostgreSQL `ROUND(x::numeric, 0)`: half away from zero. -/
def roundHalfAwayFromZero (x : ℚ) : ℤ :=
  if 0 ≤ x then ⌊x + 1/2⌋ else -⌊-x + 1/2⌋

/-- `ROUND(x::numeric, 1)`. -/
def roundTenth (x : ℚ) : ℚ := (roundHalfAwayFromZero (x * 10) : ℚ) / 10

/-- Truncation toward zero, as Go's float-to-int conversion. -/
def truncInt (x : ℚ) : ℤ := x.num / (x.den : ℤ)

/-- The GROUP BY key of `discoverAndCreateCitiesFromAllActivities`:
`(ROUND(ST_Y(ST_StartPoint(path))::numeric, 1),
ROUND(ST_X(ST_StartPoint(path))::numeric, 1))`. -/
def clusterKey (g : DiscoveryGeo) (p : Nat) : ℚ × ℚ :=
  (roundTenth (g.startLat p), roundTenth (g.startLng p))

/-- The discovery input: the user's activities with a non-NULL path. -/
def pathActivities (acts : List Activity) (u : Nat) : List Activity :=
  acts.filter (fun a => a.userId == u && a.path.isSome)

/-- One discovered cluster row: rounded key, activity count and the
centroid `(AVG(lat), AVG(lng))`. -/
structure Cluster where
  key : ℚ × ℚ
  count : Nat
  avgLat : ℚ
  avgLng : ℚ
deriving DecidableEq, Repr

/-- Aggregates of the group of activities sharing a rounded key. -/
def clusterOf (g : DiscoveryGeo) (members : List Activity) (k : ℚ × ℚ) : Cluster :=
  { key := k, count := members.length,
    avgLat := (members.map (fun a => g.startLat (a.path.getD 0))).sum / (members.length : ℚ),
    avgLng := (members.map (fun a => g.startLng (a.path.getD 0))).sum / (members.length : ℚ) }

/-- All GROUP BY groups of the discovery query, one per distinct rounded
key among the user's pathed activities. -/
def clusterGroups (g : DiscoveryGeo) (acts : List Activity) (u : Nat) : List Cluster :=
  let base := pathActivities acts u
  let keys := (base.map (fun a => clusterKey g (a.path.getD 0))).dedup
  keys.map (fun k =>
    clusterOf g (base.filter (fun a => clusterKey g (a.path.getD 0) == k)) k)

/-- The cluster rows the discovery loop iterates: groups with
`HAVING COUNT(*) >= 5`, `ORDER BY activity_count DESC`, `LIMIT 20`. -/
def discoverClusters (g : DiscoveryGeo) (acts : List Activity) (u : Nat) : List Cluster :=
  (((clusterGroups g acts u).filter (fun c => 5 ≤ c.count)).insertionSort
    (fun c1 c2 => c2.count ≤ c1.count)).take 20

/-- A city boundary: either seeded data (opaque handle) or the 10 km
metric buffer written by `createCityFromCoordinates`, whose reprojected
centroid is its centre. -/
inductive CityBoundary where
  | seeded (h : Nat)
  | buffered (center : ℚ × ℚ) (radiusM : ℚ)
deriving DecidableEq, Repr

/-- Row of the `cities` table as touched by discovery. -/
structure DiscCity where
  id : Nat
  name : String
  countryCode : String
  boundary : CityBoundary
deriving DecidableEq, Repr

/-- `ST_Transform(ST_Centroid(boundary), 3857)`. -/
def centroid3857 (g : DiscoveryGeo) : CityBoundary → ℚ × ℚ
  | .seeded h => g.seededCentroid h
  | .buffered c _ => c

/-- Squared Euclidean distance in the metric projection. -/
def distSq (p q : ℚ × ℚ) : ℚ := (p.1 - q.1) ^ 2 + (p.2 - q.2) ^ 2

/-- `ST_DWithin(p, q, d)` on 3857 geometries, squared to stay in ℚ. -/
def dWithin (p q : ℚ × ℚ) (d : ℚ) : Bool := decide (distSq p q ≤ d ^ 2)

/-- Cluster naming: `reverseGeocodeCity`, then the `Area_%d_%d` fallback
when the returned name is empty. -/
def clusterCityName (g : DiscoveryGeo) (lat lng : ℚ) : String × String :=
  let r := g.geocode lat lng
  if r.1 = "" then
    ("Area_" ++ toString (truncInt (lat * 100)) ++ "_" ++ toString (truncInt (lng * 100)),
     "XX")
  else r

/-- The near-duplicate check of discovery:
`name ILIKE $1 AND country_code = $2 OR ST_DWithin(ST_Transform(
ST_Point(lng, lat), 3857), ST_Transform(ST_Centroid(boundary), 3857),
20000)` — SQL AND binds tighter than OR. -/
def cityExistsCheck (g : DiscoveryGeo) (cities : List DiscCity)
    (name cc : String) (lat lng : ℚ) : Bool :=
  cities.any (fun c =>
    (g.iLike c.name name && c.countryCode == cc)
      || dWithin (g.toMerc lng lat) (centroid3857 g c.boundary) 20000)

/-- `AutoProcessor.createCityFromCoordinates`: the new city's boundary is
`ST_Buffer(ST_Transform(ST_MakePoint(lng, lat), 3857), 10000)`
reprojected back. -/
def createCityFromCoordinates (g : DiscoveryGeo) (name cc : String) (lat lng : ℚ)
    (cid : Nat) : DiscCity :=
  { id := cid, name := name, countryCode := cc,
    boundary := .buffered (g.toMerc lng lat) 10000 }

/-- One iteration of the discovery loop: geocode the cluster centroid,
skip when a matching or nearby city already exists (checked against the
cities present at this step, including ones created earlier in the same
pass), otherwise insert the buffered city.  State: (cities table, cities
created this pass, next serial id). -/
def discoverStep (g : DiscoveryGeo) (st : List DiscCity × List DiscCity × Nat)
    (cl : Cluster) : List DiscCity × List DiscCity × Nat :=
  let (cities, created, nextId) := st
  let nc := clusterCityName g cl.avgLat cl.avgLng
  if cityExistsCheck g cities nc.1 nc.2 cl.avgLat cl.avgLng then st
  else
    let c := createCityFromCoordinates g nc.1 nc.2 cl.avgLat cl.avgLng nextId
    (cities ++ [c], created ++ [c], nextId + 1)

/-- `AutoProcessor.discoverAndCreateCitiesFromAllActivities`: fold the
discovery step over the selected clusters. -/
def discoverAndCreateCities (g : DiscoveryGeo) (acts : List Activity) (u : Nat)
    (cities0 : List DiscCity) (nextId : Nat) : List DiscCity × List DiscCity × Nat :=
  (discoverClusters g acts u).foldl (discoverStep g) (cities0, [], nextId)

/-- Row of the `custom_areas` table as touched by coverage calculation. -/
structure CustomArea where
  id : Nat
  userId : Nat
  geomHandle : Nat
  coverage : Option ℚ
  activitiesCount : Nat
deriving DecidableEq, Repr

/-- Geometry oracle for custom-area coverage: polygon bounds
(`ST_XMin`/`ST_YMin`/`ST_XMax`/`ST_YMax`), point containment
(`ST_Contains`), path-polygon intersection (`ST_Intersects`) and
metric-projected point proximity (`ST_DWithin` after `ST_Transform` to
3857). -/
structure AreaGeo where
  boundsMin : Nat → ℚ × ℚ
  boundsMax : Nat → ℚ × ℚ
  containsPt : Nat → ℚ × ℚ → Bool
  intersectsArea : Nat → Nat → Bool
  pathNearPt : Nat → ℚ × ℚ → ℚ → Bool

/-- The `fine_grid` CTE: lattice points `(min_x + x·0.0005, min_y +
y·0.0005)` for `x`/`y` over `generate_series(0, ((max−min)/0.0005)::integer)`,
kept when contained in the polygon (the `::integer` cast rounds to the
nearest integer). -/
def gridPoints (g : AreaGeo) (h : Nat) : List (ℚ × ℚ) :=
  let mn := g.boundsMin h
  let mx := g.boundsMax h
  let nx := (round ((mx.1 - mn.1) * 2000) : ℤ).toNat
  let ny := (round ((mx.2 - mn.2) * 2000) : ℤ).toNat
  ((List.range (nx + 1)).flatMap (fun x =>
    (List.range (ny + 1)).map (fun y =>
      (mn.1 + (x : ℚ) * (1 / 2000), mn.2 + (y : ℚ) * (1 / 2000))))).filter
    (fun p => g.containsPt h p)

/-- The `intersecting_activities` CTE: the owner's activities whose path
intersects the polygon (a NULL path never satisfies `ST_Intersects`). -/
def intersectingPaths (g : AreaGeo) (acts : List Activity) (u hArea : Nat) : List Nat :=
  (acts.filter (fun a =>
    a.userId == u && a.path.isSome && g.intersectsArea (a.path.getD 0) hArea)).map
    (fun a => a.path.getD 0)

/-- The primary `coverage_percentage` the query would compute: directly
covered lattice points (some intersecting path within 25 m in 3857) over
total points, ×100, capped with LEAST at 100, 0 when the lattice is
empty. -/
def customAreaCoveragePercent (g : AreaGeo) (acts : List Activity) (u hArea : Nat) : ℚ :=
  let pts := gridPoints g hArea
  let inter := intersectingPaths g acts u hArea
  let direct := pts.countP (fun p => inter.any (fun path => g.pathNearPt path p 25))
  if 0 < pts.length then min ((direct : ℚ) / (pts.length : ℚ) * 100) 100 else 0

/-- Fragment of a SQL select expression, enough to record which column
references sit outside aggregate calls. -/
inductive SqlExpr where
  | col (table field : String)
  | lit (q : ℚ)
  | agg (fn : String) (arg : SqlExpr)
  | bin (op : String) (a b : SqlExpr)
deriving DecidableEq, Repr

/-- Column references of an expression that are not inside an aggregate
call. -/
def ungroupedCols : SqlExpr → List (String × String)
  | .col t f => [(t, f)]
  | .lit _ => []
  | .agg _ _ => []
  | .bin _ a b => ungroupedCols a ++ ungroupedCols b

/-- PostgreSQL's validity rule for an aggregated SELECT (one that uses
aggregate functions): every bare column reference must appear in the
GROUP BY list, else the statement is rejected at analysis time. -/
def aggregateSelectValid (select : List SqlExpr) (groupBy : List (String × String)) : Bool :=
  select.all (fun e => (ungroupedCols e).all (fun c => groupBy.contains c))

/-- The `covered_clusters` expression of the `cluster_analysis` CTE:
`COUNT(CASE WHEN cl.direct_coverage > 0 THEN 1 END)`. -/
def coveredClustersExpr : SqlExpr :=
  .agg "count" (.bin "case_when_then" (.bin "gt" (.col "cl" "direct_coverage") (.lit 0))
    (.lit 1))

/-- The select list of the `cluster_analysis` CTE of the custom-area
coverage query: `covered_clusters` and `coverage_density_per_sqkm =
COUNT(...)::float / (ab.area_sqm / 1000000.0)`, with `ab` cross-joined
from `area_bounds` and no GROUP BY clause. -/
def clusterAnalysisSelect : List SqlExpr :=
  [coveredClustersExpr,
   .bin "div" coveredClustersExpr (.bin "div" (.col "ab" "area_sqm") (.lit 1000000))]

/-- The (absent) GROUP BY clause of `cluster_analysis`. -/
def clusterAnalysisGroupBy : List (String × String) := []

/-- Database state seen by the custom-areas service. -/
structure AreasDB where
  areas : List CustomArea
  activities : List Activity
deriving DecidableEq, Repr

/-- `CustomAreasService.calculateCoverageAsync`: when the coverage query
passes PostgreSQL's analysis, the UPDATE persists the computed coverage
and activity count for the area; when the query is rejected, the error
branch returns without touching the table. -/
def calculateCoverageAsync (g : AreaGeo) (db : AreasDB) (areaId userId : Nat) : AreasDB :=
  if aggregateSelectValid clusterAnalysisSelect clusterAnalysisGroupBy then
    { db with areas := db.areas.map (fun ar =>
        if ar.id == areaId then
          { ar with
            coverage := some (customAreaCoveragePercent g db.activities userId ar.geomHandle),
            activitiesCount := (intersectingPaths g db.activities userId ar.geomHandle).length }
        else ar) }
  else db

/-! Concrete instances used to settle individual claims. -/

/-- City geometry with one 1 km² city and 50 km paths. -/
def c1G : CityGeo := { areaSqm := fun _ => 1000000, pathLenM := fun _ => 50000 }

/-- A single attributed activity with a path. -/
def c1Acts : List Activity :=
  [{ stravaId := 1, userId := 1, path := some 0, cityId := some 1, coverage := none,
     commentedAt := none, commentPosted := false, startDate := 0, activityType := "Run" }]

/-- A qualifying Run summary that has GPS start coordinates but an empty
summary polyline. -/
def c4CoordsOnly : Summary :=
  { id := 11, name := "morning run", activityType := "Run", sportType := "Run",
    startLatlng := [515/10, -1/10], endLatlng := [], summaryPolyline := "" }

/-- A summary with no GPS data at all and a non-filterable type. -/
def c4Indoor : Summary :=
  { id := 12, name := "stretch", activityType := "Yoga", sportType := "Yoga",
    startLatlng := [], endLatlng := [], summaryPolyline := "" }

/-- Attribution geometry with two cities tied at intersection length 5. -/
def c2G : IntersectGeo := { intersects := fun _ _ => true, interLenM := fun _ _ => 5 }

/-- An unattributed activity with a path, owned by user 7. -/
def c2A : Activity :=
  { stravaId := 2, userId := 7, path := some 0, cityId := none, coverage := none,
    commentedAt := none, commentPosted := false, startDate := 0, activityType := "Run" }

/-- Earlier pending activity of user 1 in city 7: coverage 5.0. -/
def c6A1 : Activity :=
  { stravaId := 1001, userId := 1, path := some 0, cityId := some 7, coverage := some 5,
    commentedAt := none, commentPosted := false, startDate := 10, activityType := "Run" }

/-- Later pending activity of user 1 in city 7: coverage 5.2. -/
def c6A2 : Activity :=
  { stravaId := 1002, userId := 1, path := some 1, cityId := some 7,
    coverage := some (26/5), commentedAt := none, commentPosted := false,
    startDate := 20, activityType := "Run" }

/-- Two uncommented covered activities of the same user in the same
city. -/
def c6DB : CommentsDB :=
  { activities := [c6A1, c6A2], cities := [{ id := 7, name := "Loughborough" }] }

/-- A single pending covered activity for the mark-commented run. -/
def c8A : Activity :=
  { stravaId := 2001, userId := 1, path := some 0, cityId := some 7, coverage := some 5,
    commentedAt := none, commentPosted := false, startDate := 10, activityType := "Run" }

/-- Database for the delta-notifier run of claim C8. -/
def c8DB : CommentsDB :=
  { activities := [c8A], cities := [{ id := 7, name := "Loughborough" }] }

/-- Enabled comment settings with the default threshold. -/
def c8Settings : CommentSettings :=
  { userId := 1, enabled := true, runningEnabled := true, cyclingEnabled := true,
    walkingEnabled := true, hikingEnabled := true, ebikingEnabled := true,
    skiingEnabled := true, commentTemplate := "Your coverage of {city} is {coverage}%!",
    minCoverageIncrease := 1/10, customAreasEnabled := false }

/-- Oracle under which every post and every mark succeeds. -/
def allOk : PostOracle := { postOk := fun _ => true, markOk := fun _ => true }

/-- A summary with no GPS data, as filler for full pages. -/
def c5Dummy : Summary :=
  { id := 50, name := "d", activityType := "Run", sportType := "Run",
    startLatlng := [], endLatlng := [], summaryPolyline := "" }

/-- Provider trace: page 1 full (100 summaries), page 2 answers 429. -/
def c5Provider : Nat → PageResult
  | 1 => .ok (List.replicate 100 c5Dummy)
  | 2 => .httpFail 429
  | _ => .ok []

/-- An idle import-status row. -/
def c5St0 : ImportStatusRow :=
  { inProgress := false, currentPage := 1, imported := 0, failed := 0,
    errorMessage := none, completed := true }

/-- Discovery oracle: one cluster centre at (lat 10, lng 20), a constant
geocoder, an identity metric projection and a far-away seeded centroid. -/
def c3G : DiscoveryGeo :=
  { startLat := fun _ => 10, startLng := fun _ => 20,
    geocode := fun _ _ => ("Newtown", "GB"),
    toMerc := fun lng lat => (lng, lat),
    seededCentroid := fun _ => (1000000, 1000000),
    iLike := fun a b => a == b }

/-- Five activities of user 1 starting in the same 0.1° cell. -/
def c3Acts : List Activity :=
  [{ stravaId := 31, userId := 1, path := some 0, cityId := none, coverage := none,
     commentedAt := none, commentPosted := false, startDate := 0, activityType := "Run" },
   { stravaId := 32, userId := 1, path := some 1, cityId := none, coverage := none,
     commentedAt := none, commentPosted := false, startDate := 0, activityType := "Run" },
   { stravaId := 33, userId := 1, path := some 2, cityId := none, coverage := none,
     commentedAt := none, commentPosted := false, startDate := 0, activityType := "Run" },
   { stravaId := 34, userId := 1, path := some 3, cityId := none, coverage := none,
     commentedAt := none, commentPosted := false, startDate := 0, activityType := "Run" },
   { stravaId := 35, userId := 1, path := some 4, cityId := none, coverage := none,
     commentedAt := none, commentPosted := false, startDate := 0, activityType := "Run" }]

/-- One pre-existing seeded city, far from the cluster. -/
def c3Cities : List DiscCity :=
  [{ id := 1, name := "Oldtown", countryCode := "GB", boundary := .seeded 0 }]

/-- The city the discovery pass creates from the cluster. -/
def c3NewCity : DiscCity :=
  { id := 5, name := "Newtown", countryCode := "GB",
    boundary := .buffered (20, 10) 10000 }

/-- Degenerate-but-valid area geometry: point-sized bounds (a one-point
lattice), everything contained, intersecting and within 25 m. -/
def c7G : AreaGeo :=
  { boundsMin := fun _ => (0, 0), boundsMax := fun _ => (0, 0),
    containsPt := fun _ _ => true, intersectsArea := fun _ _ => true,
    pathNearPt := fun _ _ _ => true }

/-- One activity of user 1 crossing the custom area. -/
def c7Act : Activity :=
  { stravaId := 3001, userId := 1, path := some 0, cityId := none, coverage := none,
    commentedAt := none, commentPosted := false, startDate := 0, activityType := "Run" }

/-- A custom area with no coverage computed yet. -/
def c7Area : CustomArea :=
  { id := 1, userId := 1, geomHandle := 0, coverage := none, activitiesCount := 0 }

/-- Database for the custom-area coverage run. -/
def c7DB : AreasDB := { areas := [c7Area], activities := [c7Act] }

/-! Theorems. -/

/-- C9 (counterexample): the provider answering 200 — a 2xx status — is
reported as a failure by `PostCommentToStrava`, so success is not
equivalent to receiving a 2xx status. -/
theorem C9_counterexample :
    exceptOk (postCommentToStrava (.response 200)) = false ∧ 200 ≤ 200 ∧ 200 < 300 :=
  ⟨rfl, by norm_num, by norm_num⟩

/-- C9 (amended): `PostCommentToStrava` reports success if and only if
the provider responds with status 201 Created; every other status — other
2xx codes included — and every transport error returns an error to the
caller. -/
theorem C9_amended :
    (∀ s, exceptOk (postCommentToStrava (.response s)) = true ↔ s = 201) ∧
    (∀ m, exceptOk (postCommentToStrava (.netError m)) = false) := by
  constructor
  · intro s
    by_cases h : s = 201 <;> simp [postCommentToStrava, exceptOk, h]
  · intro m
    rfl

/-- C4 (counterexample): a Run summary with GPS start coordinates but an
empty polyline is rejected by the explicit bulk import's filter, although
the claim admits it (GPS start *or* polyline); and the auto-on-login
flow inserts a summary with no GPS data and a non-filterable type,
which the claim excludes. -/
theorem C4_counterexample :
    (c4CoordsOnly.startLatlng ≠ [] ∧ c4CoordsOnly.activityType = "Run" ∧
      explicitImportOutcome [] (fun _ => []) c4CoordsOnly = .skippedFilter) ∧
    (c4Indoor.startLatlng = [] ∧ c4Indoor.summaryPolyline = "" ∧
      importActivitySummaryOutcome [] c4Indoor = .inserted) := by
  refine ⟨⟨?_, rfl, rfl⟩, ⟨rfl, rfl, rfl⟩⟩
  simp [c4CoordsOnly]

/-- C4 (amended): in the explicit bulk import a summary is inserted iff
it has GPS start coordinates AND a non-empty summary polyline AND a
filterable type or sport type AND its provider id is not already stored
AND its latlng stream is non-empty; duplicates are skipped silently.  The
auto-on-login import applies no qualification filter: it inserts every
summary whose provider id is not already stored. -/
theorem C4_amended (stored : List Int) (streams : Int → List (ℚ × ℚ)) (a : Summary) :
    (explicitImportOutcome stored streams a = .inserted ↔
      (a.startLatlng ≠ [] ∧ a.summaryPolyline ≠ "" ∧
        validTypes.any (fun t => a.activityType == t || a.sportType == t) = true ∧
        a.id ∉ stored ∧ streams a.id ≠ [])) ∧
    (importActivitySummaryOutcome stored a = .inserted ↔ a.id ∉ stored) := by
  constructor
  · simp only [explicitImportOutcome, shouldImportActivity, importSingleActivityOutcome]
    by_cases h1 : a.startLatlng.length == 0 || a.summaryPolyline == ""
    · simp only [h1, if_true, if_false]
      constructor
      · intro h; cases h
      · rintro ⟨hs, hp, -⟩
        exfalso
        rcases Bool.or_eq_true_iff.mp h1 with h | h
        · exact hs (List.length_eq_zero.mp (by simpa using h))
        · exact hp (by simpa using h)
    · simp only [h1, Bool.false_eq_true, if_false]
      rw [Bool.or_eq_true_iff] at h1
      push_neg at h1
      split_ifs with hv hd he
      · simp only [reduceCtorEq, false_iff]
        rintro ⟨-, -, -, hd', -⟩; exact hd' hd
      · simp only [reduceCtorEq, false_iff]
        rintro ⟨-, -, -, -, he'⟩; exact he' he
      · simp only [true_iff]
        refine ⟨?_, ?_, hv, hd, he⟩
        · intro h; exact h1.1 (by simp [h])
        · intro h; exact h1.2 (by simp [h])
      · simp only [reduceCtorEq, false_iff]
        rintro ⟨-, -, hv', -, -⟩; exact hv hv'
  · simp only [importActivitySummaryOutcome]
    split_ifs with hd
    · simp only [reduceCtorEq, false_iff, not_not]
      exact hd
    · simp [hd]

/-- Helper: the tiered CASE of the activity-scoped coverage query equals
the spec's explorable-distance table. -/
theorem explorable_eq_spec (a : ℚ) : estimatedExplorableKm a = explorableKmSpec a := by
  unfold estimatedExplorableKm explorableKmSpec
  rcases lt_or_le a 50 with h1 | h1
  · simp [h1]
  · rcases lt_or_le a 200 with h2 | h2
    · simp [not_lt.mpr h1, h1, h2]
    · rcases lt_or_le a 500 with h3 | h3
      · simp [not_lt.mpr h1, not_lt.mpr h2, h2, h3]
      · simp [not_lt.mpr h1, not_lt.mpr h2, not_lt.mpr h3, h2, h3]

/-- Helper: the explorable estimate is nonnegative on nonnegative areas. -/
theorem explorable_nonneg {a : ℚ} (ha : 0 ≤ a) : 0 ≤ estimatedExplorableKm a := by
  unfold estimatedExplorableKm
  split_ifs <;> exact mul_nonneg ha (by norm_num)

/-- Helper: kilometre sums over path lengths are nonnegative when the
length oracle is. -/
theorem lenSum_nonneg (g : CityGeo) (hL : ∀ p, 0 ≤ g.pathLenM p) (l : List Activity) :
    0 ≤ (l.map (fun a => g.pathLenM (a.path.getD 0) / 1000)).sum := by
  apply List.sum_nonneg
  intro x hx
  rcases List.mem_map.mp hx with ⟨a, -, rfl⟩
  exact div_nonneg (hL _) (by norm_num)

/-- C1 (amended): the activity-scoped coverage calculation returns
exactly the spec formula — min(100, total_km / explorable_km × 100) with
the tiered explorable_km, 0 when explorable_km = 0, never NaN — but the
user-city coverage read endpoint uses explorable_km = area_km2 × 12
instead of the tiered table; both operations stay within [0, 100] and
report 0 for a degenerate city. -/
theorem C1_amended (g : CityGeo) (acts : List Activity) (u cid : Nat)
    (hA : 0 ≤ g.areaSqm cid) (hL : ∀ p, 0 ≤ g.pathLenM p) :
    calculateGridBasedCoverage g acts u cid
      = coverageSpec (g.areaSqm cid / 1000000) (userDistanceKm g acts u cid) ∧
    0 ≤ getUserCityCoverage g acts u cid ∧ getUserCityCoverage g acts u cid ≤ 100 ∧
    0 ≤ calculateGridBasedCoverage g acts u cid ∧
    calculateGridBasedCoverage g acts u cid ≤ 100 ∧
    (g.areaSqm cid = 0 →
      calculateGridBasedCoverage g acts u cid = 0 ∧ getUserCityCoverage g acts u cid = 0) := by
  have harea : 0 ≤ g.areaSqm cid / 1000000 := by positivity
  have ht : 0 ≤ userDistanceKm g acts u cid := lenSum_nonneg g hL _
  have hth : 0 ≤ handlerCoveredKm g acts u cid := lenSum_nonneg g hL _
  have he := explorable_nonneg harea
  refine ⟨?_, ?_, ?_, ?_, ?_, ?_⟩
  · simp only [calculateGridBasedCoverage, coverageSpec]
    rw [← explorable_eq_spec]
    rcases eq_or_lt_of_le he with he0 | hpos
    · rw [← he0]
      norm_num
    · rw [if_pos hpos, if_neg (ne_of_gt hpos)]
      exact min_comm _ _
  · simp only [getUserCityCoverage]
    split_ifs with hr
    · exact le_min (by positivity) (by norm_num)
    · exact le_refl 0
  · simp only [getUserCityCoverage]
    split_ifs with hr
    · exact min_le_right _ _
    · norm_num
  · simp only [calculateGridBasedCoverage]
    split_ifs with hr
    · exact le_min (by positivity) (by norm_num)
    · exact le_refl 0
  · simp only [calculateGridBasedCoverage]
    split_ifs with hr
    · exact min_le_right _ _
    · norm_num
  · intro h0
    constructor
    · simp only [calculateGridBasedCoverage, h0]
      norm_num [estimatedExplorableKm]
    · simp only [getUserCityCoverage, h0]
      norm_num

/-- C1 (witness): the amended theorem applied to a 1 km² city with one
50 km activity. -/
theorem C1_amended_witness :
    calculateGridBasedCoverage c1G c1Acts 1 1
      = coverageSpec (c1G.areaSqm 1 / 1000000) (userDistanceKm c1G c1Acts 1 1) :=
  (C1_amended c1G c1Acts 1 1 (by norm_num [c1G]) (fun p => by norm_num [c1G])).1

/-- C1 (counterexample): for a 1 km² city with one 50 km activity the
user-city read endpoint reports 100 while the claimed formula — shared
with the activity-scoped calculation — yields 62.5, so the read endpoint
does not return min(100, total_km / explorable_km × 100) with the tiered
explorable_km. -/
theorem C1_counterexample :
    getUserCityCoverage c1G c1Acts 1 1 = 100 ∧
    coverageSpec (c1G.areaSqm 1 / 1000000) (userDistanceKm c1G c1Acts 1 1) = 125 / 2 ∧
    (100 : ℚ) ≠ 125 / 2 := by
  refine ⟨?_, ?_, by norm_num⟩
  · simp [getUserCityCoverage, handlerCoveredKm, c1G, c1Acts]
    norm_num
  · simp [coverageSpec, explorableKmSpec, userDistanceKm, c1G, c1Acts]
    norm_num

/-- C2 (counterexample): when two cities (ids 1 and 2) intersect the
activity path with equal intersection length, the attribution UPDATE — an
ORDER BY with no secondary key — admits assigning city 2 just as well as
city 1, so the code does not break ties by smallest city id as the claim
states. -/
theorem C2_counterexample :
    mapStepRel c2G [1, 2] 7 c2A { c2A with cityId := some 2 } ∧
    IsAttributionChoice c2G [1, 2] 0 (some 1) ∧
    c2G.interLenM 0 1 = c2G.interLenM 0 2 ∧ (2 : Nat) ≠ 1 := by
  have hcond : c2A.userId = 7 ∧ c2A.path ≠ none ∧ c2A.cityId = none :=
    ⟨rfl, by simp [c2A], rfl⟩
  refine ⟨?_, ?_, rfl, by norm_num⟩
  · rw [mapStepRel, if_pos hcond]
    refine ⟨?_, rfl⟩
    show IsAttributionChoice c2G [1, 2] (c2A.path.getD 0) (some 2)
    simp only [IsAttributionChoice, attributionCandidates]
    decide
  · simp only [IsAttributionChoice, attributionCandidates]
    decide

/-- C2 (amended): the attribution UPDATE rewrites exactly the user's
activities with a non-NULL path and NULL city_id; each such activity
receives some city of maximal reprojected intersection length among the
intersecting cities — ties are left to the database, with no smallest-id
tie-break — or keeps NULL city_id when no city intersects; no other
column and no other activity changes. -/
theorem C2_amended (g : IntersectGeo) (cities : List Nat) (u : Nat)
    (pre post : List Activity) (h : MapActivitiesToCities g cities u pre post)
    (i : Nat) (hi : i < pre.length) (hi' : i < post.length) :
    (¬((pre.get ⟨i, hi⟩).userId = u ∧ (pre.get ⟨i, hi⟩).path ≠ none ∧
        (pre.get ⟨i, hi⟩).cityId = none) →
      post.get ⟨i, hi'⟩ = pre.get ⟨i, hi⟩) ∧
    (∀ p, (pre.get ⟨i, hi⟩).userId = u → (pre.get ⟨i, hi⟩).path = some p →
      (pre.get ⟨i, hi⟩).cityId = none →
      ((∀ c ∈ cities, g.intersects p c = false) → (post.get ⟨i, hi'⟩).cityId = none) ∧
      (∀ c, (post.get ⟨i, hi'⟩).cityId = some c →
        c ∈ cities ∧ g.intersects p c = true ∧
        ∀ c' ∈ cities, g.intersects p c' = true → g.interLenM p c' ≤ g.interLenM p c) ∧
      post.get ⟨i, hi'⟩ = { pre.get ⟨i, hi⟩ with cityId := (post.get ⟨i, hi'⟩).cityId }) := by
  have hr := List.Forall₂.get h hi hi'
  rw [mapStepRel] at hr
  constructor
  · intro hnc
    rwa [if_neg hnc] at hr
  · intro p hu hp hc
    rw [if_pos ⟨hu, by intro hn; rw [hp] at hn; exact Option.noConfusion hn, hc⟩] at hr
    obtain ⟨hch, heq⟩ := hr
    have hpd : (pre.get ⟨i, hi⟩).path.getD 0 = p := by rw [hp]; rfl
    rw [hpd] at hch
    refine ⟨?_, ?_, heq⟩
    · intro hnone
      rcases hco : (post.get ⟨i, hi'⟩).cityId with _ | c
      · rfl
      · rw [hco] at hch
        simp only [IsAttributionChoice, attributionCandidates, List.mem_filter] at hch
        obtain ⟨⟨hmemc, hint⟩, -⟩ := hch
        rw [hnone c hmemc] at hint
        cases hint
    · intro c hco
      rw [hco] at hch
      simp only [IsAttributionChoice, attributionCandidates, List.mem_filter] at hch
      obtain ⟨⟨hmemc, hint⟩, hmax⟩ := hch
      refine ⟨hmemc, hint, ?_⟩
      intro c' hc' hint'
      exact hmax c' ⟨hc', hint'⟩

/-- C2 (witness): the amended theorem applied to one activity of user 7
attributed to city 1, one of the two tied maximisers. -/
theorem C2_amended_witness :
    [{ c2A with cityId := some 1 }].get ⟨0, Nat.one_pos⟩
      = { [c2A].get ⟨0, Nat.one_pos⟩ with
          cityId := ([{ c2A with cityId := some 1 }].get ⟨0, Nat.one_pos⟩).cityId } := by
  have hmap : MapActivitiesToCities c2G [1, 2] 7 [c2A] [{ c2A with cityId := some 1 }] := by
    refine List.Forall₂.cons ?_ List.Forall₂.nil
    rw [mapStepRel, if_pos ⟨rfl, by simp [c2A], rfl⟩]
    refine ⟨?_, rfl⟩
    show IsAttributionChoice c2G [1, 2] (c2A.path.getD 0) (some 1)
    simp only [IsAttributionChoice, attributionCandidates]
    decide
  exact ((C2_amended c2G [1, 2] 7 [c2A] [{ c2A with cityId := some 1 }] hmap 0
    Nat.one_pos Nat.one_pos).2 0 rfl rfl rfl).2.2

/-- Helper: behaviour of the import page loop on a provider that serves
full pages before page `p` and fails at page `p`: it requests exactly
pages `q..p`, never writes `error_message`, and leaves `current_page` at
the last successfully processed page. -/
theorem importLoop_run (provider : Nat → PageResult) (streams : Int → List (ℚ × ℚ))
    (p : Nat) (hcap : p ≤ 1000)
    (hful : ∀ q, 1 ≤ q → q < p → ∃ acts, provider q = .ok acts ∧ acts.length = 100)
    (herr : ∃ s, provider p = .httpFail s) :
    ∀ (fuel q : Nat), 1 ≤ q → q ≤ p → p - q < fuel →
      ∀ (acc : Nat × Nat × List Int) (st : ImportStatusRow),
      (importLoop provider streams fuel q acc st).2.1 = List.range' q (p - q + 1) ∧
      (importLoop provider streams fuel q acc st).1.errorMessage = st.errorMessage ∧
      (importLoop provider streams fuel q acc st).1.currentPage
        = (if q = p then st.currentPage else p - 1) := by
  intro fuel
  induction fuel with
  | zero =>
    intro q hq1 hqp hf
    omega
  | succ f ih =>
    intro q hq1 hqp hf acc st
    obtain ⟨imp, fl, stored⟩ := acc
    by_cases hqe : q = p
    · subst hqe
      obtain ⟨s, hs⟩ := herr
      have h1 : q - q + 1 = 1 := by omega
      refine ⟨?_, ?_, ?_⟩
      · simp [importLoop, hs, h1, List.range']
      · simp [importLoop, hs]
      · simp [importLoop, hs]
    · have hqlt : q < p := lt_of_le_of_ne hqp hqe
      obtain ⟨acts, hacts, hlen⟩ := hful q hq1 hqlt
      simp only [importLoop, hacts]
      rw [if_neg (by omega), if_neg (by omega), if_neg (by omega)]
      have hrec := ih (q + 1) (by omega) (by omega) (by omega)
        (processPage streams acts (imp, fl, stored))
        { st with currentPage := q,
                  imported := (processPage streams acts (imp, fl, stored)).1,
                  failed := (processPage streams acts (imp, fl, stored)).2.1 }
      refine ⟨?_, hrec.2.1, ?_⟩
      · rw [show p - q + 1 = (p - (q + 1) + 1) + 1 from by omega, List.range'_succ]
        simp only [hrec.1]
      · rw [hrec.2.2, if_neg hqe]
        by_cases hq1e : q + 1 = p
        · rw [if_pos hq1e]
          simp only []
          omega
        · rw [if_neg hq1e]

/-- Helper: whatever the provider answers, the import loop's first
request is its starting page. -/
theorem importLoop_first_page (provider : Nat → PageResult) (streams : Int → List (ℚ × ℚ))
    (fuel q : Nat) (acc : Nat × Nat × List Int) (st : ImportStatusRow) :
    (importLoop provider streams (fuel + 1) q acc st).2.1.head? = some q := by
  simp only [importLoop]
  rcases hpq : provider q with acts | s
  · dsimp only
    by_cases h0 : acts.length = 0
    · simp [h0]
    · rw [if_neg h0]
      by_cases hlt : acts.length < 100
      · simp [hlt]
      · by_cases hcap : 1000 < q + 1
        · simp [hlt, hcap]
        · simp [hlt, hcap]
  · rfl

/-- Helper: squared metric distance is symmetric. -/
theorem distSq_comm (p q : ℚ × ℚ) : distSq p q = distSq q p := by
  unfold distSq
  ring

/-- Helper: invariant of the discovery fold — every city created so far
is a 10 km buffer, matches no pre-pass city on (name, country) and lies
strictly beyond 20 km of every pre-pass city's centroid; the pre-pass
cities stay in the working cities list. -/
theorem discoverFold_inv (g : DiscoveryGeo) (cities0 : List DiscCity) :
    ∀ (clusters : List Cluster) (cs cr : List DiscCity) (nid : Nat),
      (∀ c0 ∈ cities0, c0 ∈ cs) →
      (∀ c ∈ cr, (∃ center, c.boundary = CityBoundary.buffered center 10000) ∧
        ∀ c0 ∈ cities0,
          ¬(g.iLike c0.name c.name = true ∧ c0.countryCode = c.countryCode) ∧
          20000 ^ 2 < distSq (centroid3857 g c.boundary) (centroid3857 g c0.boundary)) →
      ∀ c ∈ (clusters.foldl (discoverStep g) (cs, cr, nid)).2.1,
        (∃ center, c.boundary = CityBoundary.buffered center 10000) ∧
        ∀ c0 ∈ cities0,
          ¬(g.iLike c0.name c.name = true ∧ c0.countryCode = c.countryCode) ∧
          20000 ^ 2 < distSq (centroid3857 g c.boundary) (centroid3857 g c0.boundary) := by
  intro clusters
  induction clusters with
  | nil =>
    intro cs cr nid hsub hinv c hc
    exact hinv c hc
  | cons cl rest ih =>
    intro cs cr nid hsub hinv
    simp only [List.foldl_cons, discoverStep]
    by_cases hex : cityExistsCheck g cs (clusterCityName g cl.avgLat cl.avgLng).1
        (clusterCityName g cl.avgLat cl.avgLng).2 cl.avgLat cl.avgLng = true
    · simp only [hex, if_true]
      exact ih cs cr nid hsub hinv
    · have hfalse : cityExistsCheck g cs (clusterCityName g cl.avgLat cl.avgLng).1
          (clusterCityName g cl.avgLat cl.avgLng).2 cl.avgLat cl.avgLng = false :=
        Bool.eq_false_iff.mpr hex
      simp only [hfalse, Bool.false_eq_true, if_false]
      apply ih
      · intro c0 h0
        exact List.mem_append_left _ (hsub c0 h0)
      · intro c hc
        rcases List.mem_append.mp hc with hc | hc
        · exact hinv c hc
        · have hceq : c = createCityFromCoordinates g
              (clusterCityName g cl.avgLat cl.avgLng).1
              (clusterCityName g cl.avgLat cl.avgLng).2 cl.avgLat cl.avgLng nid := by
            simpa using hc
          subst hceq
          refine ⟨⟨_, rfl⟩, ?_⟩
          intro c0 h0
          have hall : ∀ x ∈ cs,
              (g.iLike x.name (clusterCityName g cl.avgLat cl.avgLng).1 = true →
                ¬x.countryCode = (clusterCityName g cl.avgLat cl.avgLng).2) ∧
              dWithin (g.toMerc cl.avgLng cl.avgLat) (centroid3857 g x.boundary) 20000
                = false := by
            simpa [cityExistsCheck] using hfalse
          obtain ⟨hname, hdist⟩ := hall c0 (hsub c0 h0)
          constructor
          · intro hcontra
            exact hname (by simpa [createCityFromCoordinates] using hcontra.1)
              (by simpa [createCityFromCoordinates] using hcontra.2)
          · have hle : ¬ distSq (g.toMerc cl.avgLng cl.avgLat)
                (centroid3857 g c0.boundary) ≤ 20000 ^ 2 := by
              simpa [dWithin] using hdist
            rw [not_le] at hle
            calc 20000 ^ 2
                < distSq (g.toMerc cl.avgLng cl.avgLat) (centroid3857 g c0.boundary) := hle
              _ = distSq (centroid3857 g (createCityFromCoordinates g
                    (clusterCityName g cl.avgLat cl.avgLng).1
                    (clusterCityName g cl.avgLat cl.avgLng).2
                    cl.avgLat cl.avgLng nid).boundary) (centroid3857 g c0.boundary) := rfl

/-- C3: city discovery groups the user's pathed activities by their
rounded (0.1°) start coordinates, keeps only groups of at least 5
activities, processes at most 20 groups in descending activity-count
order, creates each new city as a 10 km metric buffer, and every city
created in a pass matches no pre-existing city on (name, country_code)
and has its centroid strictly more than 20 km from every pre-existing
city's centroid. -/
theorem C3_discovery (g : DiscoveryGeo) (acts : List Activity) (u : Nat)
    (cities0 : List DiscCity) (nextId : Nat) :
    (∀ cl ∈ discoverClusters g acts u, 5 ≤ cl.count ∧ cl ∈ clusterGroups g acts u) ∧
    (discoverClusters g acts u).length ≤ 20 ∧
    ((discoverClusters g acts u).map (fun c => c.count)).Sorted (· ≥ ·) ∧
    (∀ cl ∈ clusterGroups g acts u,
      cl.count = ((pathActivities acts u).filter
        (fun a => clusterKey g (a.path.getD 0) == cl.key)).length) ∧
    ∀ c ∈ (discoverAndCreateCities g acts u cities0 nextId).2.1,
      (∃ center, c.boundary = CityBoundary.buffered center 10000) ∧
      ∀ c0 ∈ cities0,
        ¬(g.iLike c0.name c.name = true ∧ c0.countryCode = c.countryCode) ∧
        20000 ^ 2 < distSq (centroid3857 g c.boundary) (centroid3857 g c0.boundary) := by
  haveI : IsTotal Cluster (fun c1 c2 => c2.count ≤ c1.count) :=
    ⟨fun a b => (le_total a.count b.count).symm⟩
  haveI : IsTrans Cluster (fun c1 c2 => c2.count ≤ c1.count) :=
    ⟨fun _ _ _ hab hbc => le_trans hbc hab⟩
  refine ⟨?_, ?_, ?_, ?_, ?_⟩
  · intro cl hcl
    have hs := (List.take_sublist 20 _).subset hcl
    rw [List.mem_insertionSort] at hs
    have hf := List.mem_filter.mp hs
    exact ⟨of_decide_eq_true hf.2, hf.1⟩
  · exact List.length_take_le 20 _
  · have hsorted : List.Sorted (fun c1 c2 : Cluster => c2.count ≤ c1.count)
        (discoverClusters g acts u) := by
      have hp := List.sorted_insertionSort (fun c1 c2 : Cluster => c2.count ≤ c1.count)
        ((clusterGroups g acts u).filter (fun c => 5 ≤ c.count))
      exact List.Pairwise.sublist (List.take_sublist 20 _) hp
    exact List.Pairwise.map (fun c : Cluster => c.count) (fun a b h => h) hsorted
  · intro cl hcl
    simp only [clusterGroups] at hcl
    rcases List.mem_map.mp hcl with ⟨k, -, rfl⟩
    rfl
  · exact discoverFold_inv g cities0 (discoverClusters g acts u) cities0 [] nextId
      (fun c0 h0 => h0) (fun c hc => absurd hc (List.not_mem_nil c))

/-- C3 (witness): the discovery theorem applied to five activities
clustering at (10, 20) with one far-away pre-existing city: the created
city is a 10 km buffer and sits strictly beyond 20 km of the seeded
centroid. -/
theorem C3_discovery_witness :
    (∃ center, c3NewCity.boundary = CityBoundary.buffered center 10000) ∧
    20000 ^ 2 < distSq (centroid3857 c3G c3NewCity.boundary)
      (centroid3857 c3G (CityBoundary.seeded 0)) := by
  have h := (C3_discovery c3G c3Acts 1 c3Cities 5).2.2.2.2 c3NewCity
    (by
      norm_num [discoverAndCreateCities, discoverClusters, clusterGroups, pathActivities,
        clusterKey, roundTenth, roundHalfAwayFromZero, clusterOf, discoverStep,
        cityExistsCheck, clusterCityName, createCityFromCoordinates, dWithin, distSq,
        centroid3857, c3NewCity, c3G, c3Acts, c3Cities, List.insertionSort,
        List.orderedInsert, List.filter_cons, List.dedup_cons_of_mem,
        List.dedup_cons_of_not_mem]
      decide)
  exact ⟨h.1, (h.2 ⟨1, "Oldtown", "GB", CityBoundary.seeded 0⟩ (by simp [c3Cities])).2⟩

/-- C5 (counterexample): with a provider serving one full page and
answering 429 on page 2, the explicit import requests pages 1 and 2,
terminates with `error_message` still NULL (it never records the failing
page), and a second `StartImport` requests pages 1 and 2 again — it
restarts from page 1 instead of resuming from the failing page. -/
theorem C5_counterexample :
    (performInitialImport c5Provider (fun _ => []) [] c5St0).2 = [1, 2] ∧
    (performInitialImport c5Provider (fun _ => []) [] c5St0).1.errorMessage = none ∧
    (performInitialImport c5Provider (fun _ => [])
      [] (performInitialImport c5Provider (fun _ => []) [] c5St0).1).2 = [1, 2] := by
  refine ⟨?_, ?_, ?_⟩ <;> decide

/-- C5 (amended): when a page fetch of the explicit import fails (any
non-200 status, 429 included — there is no retry in this path), the job
stops at that page: `error_message` is left NULL rather than recording
the page, `in_progress` is cleared, `completed_at` is stamped and
`current_page` holds the last successfully processed page; and every
`StartImport` — the recovery run included — resets `current_page` to 1
and begins fetching at page 1, so nothing resumes from the failing
page. -/
theorem C5_amended (provider : Nat → PageResult) (streams : Int → List (ℚ × ℚ))
    (stored : List Int) (st0 : ImportStatusRow) (p : Nat) (hp1 : 1 ≤ p) (hcap : p ≤ 1000)
    (hful : ∀ q, 1 ≤ q → q < p → ∃ acts, provider q = .ok acts ∧ acts.length = 100)
    (herr : ∃ s, provider p = .httpFail s) :
    (performInitialImport provider streams stored st0).2 = List.range' 1 p ∧
    (performInitialImport provider streams stored st0).1.errorMessage = none ∧
    (performInitialImport provider streams stored st0).1.inProgress = false ∧
    (performInitialImport provider streams stored st0).1.completed = true ∧
    (performInitialImport provider streams stored st0).1.currentPage
      = (if p = 1 then 1 else p - 1) ∧
    ∀ (provider2 : Nat → PageResult) (streams2 : Int → List (ℚ × ℚ))
      (stored2 : List Int) (st2 : ImportStatusRow),
      (performInitialImport provider2 streams2 stored2 st2).2.head? = some 1 := by
  have hrun := importLoop_run provider streams p hcap hful herr 1001 1 (by omega) hp1
    (by omega) (0, 0, stored)
    { st0 with inProgress := true, currentPage := 1, completed := false,
               errorMessage := none }
  refine ⟨?_, ?_, rfl, rfl, ?_, ?_⟩
  · simp only [performInitialImport]
    rw [hrun.1]
    congr 1
    omega
  · simp only [performInitialImport]
    exact hrun.2.1
  · simp only [performInitialImport]
    rw [hrun.2.2]
    by_cases hp : p = 1
    · rw [if_pos hp.symm, if_pos hp]
    · rw [if_neg (fun h => hp h.symm), if_neg hp]
  · intro provider2 streams2 stored2 st2
    simp only [performInitialImport]
    exact importLoop_first_page provider2 streams2 1000 1 _ _

/-- C5 (witness): the amended theorem applied to the two-page 429
trace. -/
theorem C5_amended_witness :
    (performInitialImport c5Provider (fun _ => []) [] c5St0).2 = List.range' 1 2 :=
  (C5_amended c5Provider (fun _ => []) [] c5St0 2 (by norm_num) (by norm_num)
    (fun q hq1 hqp => by
      have hq : q = 1 := by omega
      subst hq
      exact ⟨List.replicate 100 c5Dummy, rfl, by simp⟩)
    ⟨429, rfl⟩).1

/-- C6: evaluation of `DetectCoverageIncreases` on a user with two
uncommented covered activities (coverages 5.0 then 5.2) in the same
city: the query returns three rows — activity 1002 twice, once paired
with 0 and once with activity 1001's coverage — instead of selecting
each qualifying activity exactly once against its own previous maximum,
because the CTE's grouping key `a1.id` is dropped by the re-join on
`city_id` alone. -/
theorem C6_eval :
    (detectCoverageIncreases c6DB 1).map (fun r => (r.activityId, r.prev, r.increase))
      = [(1001, 0, 5), (1002, 0, 26/5), (1002, 5, 1/5)] ∧
    ((detectCoverageIncreases c6DB 1).filter (fun r => r.activityId == 1002)).length = 2 := by
  norm_num [detectCoverageIncreases, pendingActivities, prevCoverageFor, maxOrZero,
    c6DB, c6A1, c6A2, List.insertionSort, List.orderedInsert, List.filterMap_cons,
    List.filter_cons, List.flatMap_cons, List.head?, List.cons_ne_nil]

/-- Helper: pointwise relation between a list and its image under a map. -/
theorem forall₂_map_of {α : Type} (P : α → α → Prop) (f : α → α) (l : List α)
    (h : ∀ a, P a (f a)) : List.Forall₂ P l (l.map f) := by
  induction l with
  | nil => exact .nil
  | cons a t ih => exact .cons (h a) ih

/-- Helper: `CommentRunPreserves` is reflexive (lifted to lists). -/
theorem commentRunPreserves_refl (now : Int) (l : List Activity) :
    List.Forall₂ (CommentRunPreserves now) l l := by
  induction l with
  | nil => exact .nil
  | cons a t ih => exact .cons ⟨rfl, rfl, rfl, rfl, rfl, rfl, rfl, rfl, .inl rfl⟩ ih

/-- Helper: the mark-commented UPDATE only stamps `commented_at`. -/
theorem commentRunPreserves_mark (now : Int) (aid : Int) (db : CommentsDB) :
    List.Forall₂ (CommentRunPreserves now) db.activities
      (markActivityAsCommented db aid now).activities := by
  apply forall₂_map_of
  intro a
  by_cases h : (a.stravaId == aid) = true
  · simp only [h, if_true]
    exact ⟨rfl, rfl, rfl, rfl, rfl, rfl, rfl, rfl, .inr rfl⟩
  · simp only [h, if_false, Bool.false_eq_true]
    exact ⟨rfl, rfl, rfl, rfl, rfl, rfl, rfl, rfl, .inl rfl⟩

/-- Helper: `CommentRunPreserves` composes (lifted to lists). -/
theorem commentRunPreserves_trans (now : Int) :
    ∀ {l1 l2 l3 : List Activity}, List.Forall₂ (CommentRunPreserves now) l1 l2 →
      List.Forall₂ (CommentRunPreserves now) l2 l3 →
      List.Forall₂ (CommentRunPreserves now) l1 l3 := by
  intro l1 l2 l3 h1 h2
  induction h1 generalizing l3 with
  | nil => cases h2; exact .nil
  | cons hab htail ih =>
    cases h2 with
    | cons hbc h2tail =>
      refine .cons ?_ (ih h2tail)
      obtain ⟨p1, s1, u1, c1, v1, d1, t1, q1, m1⟩ := hab
      obtain ⟨p2, s2, u2, c2, v2, d2, t2, q2, m2⟩ := hbc
      refine ⟨p2.trans p1, s2.trans s1, u2.trans u1, c2.trans c1, v2.trans v1,
        d2.trans d1, t2.trans t1, q2.trans q1, ?_⟩
      rcases m2 with m2 | m2
      · rw [m2]; exact m1
      · exact .inr m2

/-- Helper: invariant of the comment-processing fold — the original
table is only ever changed per `CommentRunPreserves`, and the marked ids
are exactly the posted ids whose mark UPDATE succeeded. -/
theorem processFold_pres (s : CommentSettings) (o : PostOracle) (now : Int)
    (incs : List IncRow) :
    ∀ (db0 : CommentsDB) (p0 m0 : List Int) (orig : List Activity),
      List.Forall₂ (CommentRunPreserves now) orig db0.activities →
      m0 = p0.filter o.markOk →
      List.Forall₂ (CommentRunPreserves now) orig
        ((incs.foldl (processStep s o now) (db0, p0, m0)).1.activities) ∧
      (incs.foldl (processStep s o now) (db0, p0, m0)).2.2
        = (incs.foldl (processStep s o now) (db0, p0, m0)).2.1.filter o.markOk := by
  induction incs with
  | nil =>
    intro db0 p0 m0 orig h1 h2
    exact ⟨h1, h2⟩
  | cons inc rest ih =>
    intro db0 p0 m0 orig h1 h2
    simp only [List.foldl_cons, processStep]
    by_cases hsc : shouldCommentOnActivity s inc.activityType inc.increase = true
    · simp only [hsc, if_true]
      by_cases hpo : o.postOk inc.activityId = true
      · simp only [hpo, if_true]
        by_cases hmo : o.markOk inc.activityId = true
        · simp only [hmo, if_true]
          refine ih _ _ _ _
            (commentRunPreserves_trans now h1 (commentRunPreserves_mark now _ db0)) ?_
          rw [h2, List.filter_append]
          simp [hmo]
        · simp only [hmo, Bool.false_eq_true, if_false]
          refine ih _ _ _ _ h1 ?_
          rw [h2, List.filter_append]
          simp [hmo]
      · simp only [hpo, Bool.false_eq_true, if_false]
        exact ih _ _ _ _ h1 h2
    · simp only [hsc, Bool.false_eq_true, if_false]
      exact ih _ _ _ _ h1 h2

/-- C8 (counterexample): a successful delta-notifier run on an enabled
user stamps `commented_at` on the posted activity but leaves
`comment_posted = false`, so `commented_at ≠ NULL` does not imply
`comment_posted = true`. -/
theorem C8_counterexample :
    ((processAutoComments c8DB (some c8Settings) allOk 1 99).1.activities.map
      (fun a => (a.commentedAt, a.commentPosted))) = [(some 99, false)] ∧
    (processAutoComments c8DB (some c8Settings) allOk 1 99).2.1 = [2001] := by
  norm_num [processAutoComments, processStep, getUserCommentSettings,
    detectCoverageIncreases, pendingActivities, prevCoverageFor, maxOrZero,
    shouldCommentOnActivity, markActivityAsCommented, c8DB, c8A, c8Settings, allOk,
    List.insertionSort, List.orderedInsert, List.filterMap_cons, List.filter_cons,
    List.flatMap_cons, List.head?, List.cons_ne_nil]

/-- C8 (amended): for every successful comment post the notifier invokes
the mark-commented UPDATE exactly once — the marked ids are exactly the
posted ids whose UPDATE succeeded — and a run changes activity rows only
by stamping `commented_at`; in particular `comment_posted` is never set
by the delta notifier, so activities with `commented_at ≠ NULL` may keep
`comment_posted = false`. -/
theorem C8_amended (db : CommentsDB) (row : Option CommentSettings) (o : PostOracle)
    (u : Nat) (now : Int) :
    List.Forall₂ (CommentRunPreserves now) db.activities
      (processAutoComments db row o u now).1.activities ∧
    (processAutoComments db row o u now).2.2
      = (processAutoComments db row o u now).2.1.filter o.markOk := by
  simp only [processAutoComments]
  split_ifs with hs
  · exact ⟨commentRunPreserves_refl now db.activities, rfl⟩
  · exact processFold_pres _ o now _ db [] [] db.activities
      (commentRunPreserves_refl now db.activities) rfl

/-- C7: the `cluster_analysis` CTE of the custom-area coverage query
references `ab.area_sqm` outside any aggregate with no GROUP BY clause,
so PostgreSQL rejects the whole statement; `calculateCoverageAsync`
therefore always takes its error return and persists nothing — on a
one-point-lattice area fully covered by one activity, where the claimed
formula yields 100, the stored `coverage_percentage` remains NULL. -/
theorem C7_eval :
    aggregateSelectValid clusterAnalysisSelect clusterAnalysisGroupBy = false ∧
    (∀ (g : AreaGeo) (db : AreasDB) (areaId userId : Nat),
      calculateCoverageAsync g db areaId userId = db) ∧
    customAreaCoveragePercent c7G c7DB.activities 1 0 = 100 ∧
    ((calculateCoverageAsync c7G c7DB 1 1).areas.map (fun a => a.coverage)) = [none] := by
  have hv : aggregateSelectValid clusterAnalysisSelect clusterAnalysisGroupBy = false := by
    decide
  refine ⟨hv, ?_, ?_, ?_⟩
  · intro g db areaId userId
    simp [calculateCoverageAsync, hv]
  · norm_num [customAreaCoveragePercent, gridPoints, intersectingPaths, c7G, c7DB,
      c7Act, c7Area, List.countP, List.countP.go, List.filter_cons, List.range_succ,
      List.flatMap_cons, List.flatMap_nil, List.sum_cons, List.sum_nil]
  · simp [calculateCoverageAsync, hv, c7DB, c7Area]

/-- C10: for a user with no `comment_settings` row the settings fetch
does not fail — it returns synthetic defaults with `enabled = false`,
`min_coverage_increase = 0.1` and the documented template — and the delta
notifier run for such a user posts zero comments, marks nothing, changes
nothing and returns no error. -/
theorem C10_settings_defaults (db : CommentsDB) (o : PostOracle) (u : Nat) (now : Int) :
    getUserCommentSettings u none = defaultCommentSettings u ∧
    (defaultCommentSettings u).enabled = false ∧
    (defaultCommentSettings u).minCoverageIncrease = 1 / 10 ∧
    (defaultCommentSettings u).commentTemplate = "Your coverage of {city} is {coverage}%!" ∧
    processAutoComments db none o u now = (db, [], []) := by
  refine ⟨rfl, rfl, rfl, rfl, ?_⟩
  simp [processAutoComments, getUserCommentSettings, defaultCommentSettings]

end Strava
